import Mathlib

/-!
Shallow embedding of `src/python_simulator/main.py` (2D multi-robot formation
simulator with CBF safety filtering).  Numeric state is modelled over `ℚ`
(the Python code uses floats but every constant involved here is exact).
Functions imported from the repository's `auxiliary` module, which is not
under `src/`, are modelled from the spec and say so in their doc comments.
-/

set_option maxRecDepth 4000

namespace Spec2Proof

/-- Problem dimensionality, main.py line 27. -/
def dim : ℕ := 2

/-- Window half-size in x, main.py line 30. -/
def winx : ℚ := 30

/-- Window half-size in y, main.py line 31. -/
def winy : ℚ := 30

/-- Arena half-extent in x, main.py line 34: `x_max = winx-5`. -/
def x_max : ℚ := winx - 5

/-- Arena half-extent in y, main.py line 35: `y_max = winy-5`. -/
def y_max : ℚ := winy - 5

/-- Simulation update frequency in Hz, main.py line 41. -/
def freq : ℚ := 50

/-- The same frequency as a natural number, used for step counting. -/
def freqN : ℕ := 50

/-- Maximum simulation time in seconds, main.py line 44. -/
def max_T : ℕ := 60

/-- Linear class-K gain of the CBF condition, main.py line 71. -/
def alpha : ℚ := 1

/-- HuIL activation flag (1 = active), main.py line 75. -/
def huil : ℕ := 1

/-- HuIL speed magnitude, main.py line 79: `v_huil = 2.5`. -/
def v_huil : ℚ := 5 / 2

/-- Segment divisor of the HuIL / extra-robot law, main.py line 80. -/
def division : ℕ := 6

/-- Wedge selection flag, main.py line 83: `wedge = False`. -/
def wedgeSel : Bool := false

/-- Extra-robot (obstacle mode) flag, main.py line 86: `extra_robot = True`. -/
def extra_robotFlag : Bool := true

/-- Ideal formation positions, main.py lines 48-49 (21 coordinate pairs). -/
def formation_positions : List (ℤ × ℤ) :=
  [(0, 10), (0, 8), (0, 6), (0, 4), (0, 2), (0, 0), (0, -2), (0, -4), (0, -6),
   (0, -8), (0, -10),
   (10, 10), (8, 8), (6, 6), (4, 4), (2, 2), (2, -2), (4, -4), (6, -6),
   (8, -8), (10, -10)]

/-- Number of robots, main.py line 52: the length of the formation list. -/
def number_robots : ℕ := formation_positions.length

/-- Robot overridden by HuIL (1-based), main.py line 76: the last robot. -/
def human_robot : ℕ := number_robots

/-- Neighbour list of robot `j` (0-based robot index, 1-based entries),
main.py line 59: `[[i+1 for i in range(number_robots) if i != j] for j in
range(number_robots)]`, i.e. the complete graph. -/
def neighbours (j : ℕ) : List ℕ :=
  (List.range number_robots).filterMap (fun i => if i ≠ j then some (i + 1) else none)

/-- Degree of robot `i`, main.py line 100. -/
def number_neighbours (i : ℕ) : ℕ := (neighbours i).length

/-- Inner loop of the edge-list construction, main.py lines 104-107: for each
`j` in `neighbours i`, the pair `(i+1, j)` is appended exactly when neither it
nor its mirror `(j, i+1)` is already present. -/
def edgeStep (i : ℕ) (es : List (ℕ × ℕ)) : List (ℕ × ℕ) :=
  (neighbours i).foldl
    (fun es2 j =>
      if (i + 1, j) ∈ es2 ∨ (j, i + 1) ∈ es2 then es2 else es2 ++ [(i + 1, j)])
    es

/-- Edge list built by the double loop of main.py lines 99-107. -/
def edges : List (ℕ × ℕ) :=
  (List.range number_robots).foldl (fun es i => edgeStep i es) []

/-- Truncations of the outer loop of main.py lines 99-107: the edge list after
processing the first `n` rows.  `edges = edgesAux number_robots`. -/
def edgesAux (n : ℕ) : List (ℕ × ℕ) :=
  (List.range n).foldl (fun es i => edgeStep i es) []

/-- Closed form used to evaluate the edge-list fold: all pairs `(a+1, b+1)`
with `a < b < number_robots` whose first component is below `m`, in the
lexicographic order in which the loop appends them.  This is a proof artifact
(the evaluation target of `edgesAux`), not source code. -/
def pairsUpTo (m : ℕ) : List (ℕ × ℕ) :=
  (List.range m).foldr
    (fun a acc =>
      ((List.range (number_robots - (a + 1))).map (fun k => (a + 1, a + 2 + k))) ++ acc)
    []

/-- Matrix built by main.py lines 96-107 (0-based indices).  The diagonal
entry of row `i` is set to the degree at line 101.  The off-diagonal write
`L_G[i, j-1] = -1` at line 107 sits inside the edge-deduplication guard of
line 105, so entry `(i, j)` is `-1` exactly when the pair `(i+1, j+1)` was
appended to `edges` (each pair is appended at most once, while row `i` is
processed, and the diagonal is never touched by the inner loop); every other
off-diagonal entry keeps its initial zero. -/
def L_G (i j : ℕ) : ℤ :=
  if i = j then (number_neighbours i : ℤ)
  else if (i + 1, j + 1) ∈ edges then -1 else 0

/-- Desired formation positions flattened to one vector, main.py line 115:
`p_d = np.reshape(formation_positions, number_robots*dim)` (row-major, so
coordinate `k` belongs to robot `k / 2`, x for even `k` and y for odd `k`). -/
def p_d (k : ℕ) : ℚ :=
  let pr := formation_positions.getD (k / 2) (0, 0)
  if k % 2 = 0 then (pr.1 : ℚ) else (pr.2 : ℚ)

/-- Total number of simulated time points, main.py line 163:
`max_time_size = max_T*freq`. -/
def max_time_size : ℕ := max_T * freqN

/-- Number of executed iterations of the simulation loop, main.py line 179:
`for i in tqdm(range(max_time_size-1))`. -/
def loopIters : ℕ := (List.range (max_time_size - 1)).length

/-- Modelled from the spec: rows appended to each of the five history tables
(lines 207-229 of main.py).  The names written there (`self.cbf_cm`, `time`,
`uhuilx`, `uhuily`) resolve only through the star import of the `auxiliary`
module absent from `src/`; per the spec the histories are written once per
step, so each table receives one appended row per executed loop iteration. -/
def historyRowsPerTable : ℕ := loopIters

/-- Columns of the position matrix that get written: the initial column at
main.py line 172 plus one column per executed iteration at line 200. -/
def positionColumnsWritten : ℕ := 1 + loopIters

/-- Constraint families that the dispatch of main.py lines 189-196 hands to
the safety filter. -/
inductive ConstraintFamily
  | arena
  | wedge
  | extra
deriving DecidableEq

/-- Dispatch of main.py lines 189-196: the list of constraint systems passed
to the safety-filter call of the taken branch.  `extra_robot` selects
`cbfControllerWArenaExtra(..., A_arena, b_arena, ..., A_extra, b_extra, ...)`;
otherwise `wedge` selects `cbfControllerWArenaWedge(..., A_arena, b_arena,
..., A_wedge, b_wedge)`; otherwise `cbfControllerWArena(..., A_arena,
b_arena, ...)`.  The filter itself lives in the `auxiliary` module absent
from `src/`; modelled from the spec (§4.4) it stacks every system it
receives into one `(A, b)`. -/
def qpFamilies (er w : Bool) : List ConstraintFamily :=
  if er then [ConstraintFamily.arena, ConstraintFamily.extra]
  else if w then [ConstraintFamily.arena, ConstraintFamily.wedge]
  else [ConstraintFamily.arena]

/-- Arena half-extent guarding coordinate `k` of the stacked state vector:
`x_max` for x coordinates (even `k`), `y_max` for y coordinates (odd `k`),
matching the block-diagonal `A_arena` of main.py lines 118-126 and the bounds
`x_max, -x_max, y_max, -y_max` passed at lines 191-196. -/
def coordBound (k : ℕ) : ℚ := if k % 2 = 0 then x_max else y_max

/-- Modelled from the spec: `systemDynamics` lives in the `auxiliary` module
absent from `src/`; the spec (§4.6) gives single-integrator dynamics
`ṡ = u` for the controlled robots. -/
def systemDynamics (n2 : ℕ) (p u : Fin n2 → ℚ) : Fin n2 → ℚ := u

/-- Forward-Euler integration of the robots, main.py lines 199-200:
`pdot = systemDynamics(p[:,i], u); p[:,i+1] = pdot*(1/freq) + p[:,i]`. -/
def integrateStep (n2 : ℕ) (p u : Fin n2 → ℚ) : Fin n2 → ℚ :=
  fun k => systemDynamics n2 p u k * (1 / freq) + p k

/-- Modelled from the spec: the arena rows of the stacked QP constraint
system built inside the absent `auxiliary` module.  Per spec §4.4, each wall
contributes `h = bound - coordinate` (resp. `h = coordinate + bound`) with
constant gradient, and the CBF condition `hdot ≥ -alpha*h` yields the affine
rows `u_k ≤ alpha*(bound - p_k)` and `-u_k ≤ alpha*(p_k + bound)`; a feasible
QP answer satisfies all of them. -/
def arenaRows (n2 : ℕ) (p u : Fin n2 → ℚ) : Prop :=
  ∀ k : Fin n2,
    u k ≤ alpha * (coordBound k.val - p k) ∧ -(u k) ≤ alpha * (p k + coordBound k.val)

/-- Every coordinate of the stacked state vector lies inside its arena
half-extent. -/
def inArena (n2 : ℕ) (p : Fin n2 → ℚ) : Prop :=
  ∀ k : Fin n2, -(coordBound k.val) ≤ p k ∧ p k ≤ coordBound k.val

/-- Modelled from the spec: `extraRobotDynamics` lives in the `auxiliary`
module absent from `src/`.  Per spec §4.3 it is a deterministic function of
exactly the elapsed step count `i`, the total step count `T`, the speed
magnitude `v` and the segment divisor `d` (the values passed at main.py line
204): it partitions the run into `d` equal segments and alternates a
direction vector of fixed magnitude `v` across segments. -/
def extraRobotDynamics (i T : ℕ) (v : ℚ) (d : ℕ) : ℚ × ℚ :=
  if (i / (T / d)) % 2 = 0 then (v, 0) else (-v, 0)

/-- Forward-Euler integration of the extra robot, main.py lines 203-205:
`huil_pdot = extraRobotDynamics(i, max_time_size, v_huil, division);
huil_p[:,i+1] = huil_pdot*(1/freq) + huil_p[:,i]`. -/
def huilIntegrate (i T : ℕ) (v : ℚ) (d : ℕ) (q : ℚ × ℚ) : ℚ × ℚ :=
  ((extraRobotDynamics i T v d).1 * (1 / freq) + q.1,
   (extraRobotDynamics i T v d).2 * (1 / freq) + q.2)

/-- Modelled from the spec: `huilController` lives in the `auxiliary` module
absent from `src/`.  Per spec §4.3 (blended mode), when the flag is set the
exogenous velocity law replaces the designated robot `hr`'s (1-based) pair of
nominal command entries; otherwise the command is left unchanged. -/
def huilController (n2 : ℕ) (u : Fin n2 → ℚ) (huilFlag hr i T : ℕ) (v : ℚ) (d : ℕ) :
    Fin n2 → ℚ :=
  fun k =>
    if huilFlag ≠ 0 ∧ (k.val = 2 * hr - 2 ∨ k.val = 2 * hr - 1) then
      (if k.val % 2 = 0 then (extraRobotDynamics i T v d).1 else (extraRobotDynamics i T v d).2)
    else u k

/-- HuIL dispatch of main.py lines 183-187: in obstacle mode (`extra_robot`)
the nominal command is passed through unmodified, otherwise `huilController`
is applied. -/
def u_n (n2 : ℕ) (er : Bool) (unom : Fin n2 → ℚ) (huilFlag hr i T : ℕ) (v : ℚ) (d : ℕ) :
    Fin n2 → ℚ :=
  if er then unom else huilController n2 unom huilFlag hr i T v d

/-- Per-robot neighbour-sum form of the nominal formation law, spec §4.2:
coordinate `k` of `u_nom` is the sum over `j` in `neighbours (k/2)` of
`(p_j - p_i) - (p_d_j - p_d_i)` at that coordinate.  Modelled from the spec:
`formationController` itself lives in the `auxiliary` module absent from
`src/`; the spec states this formula and asserts it equal to the matrix
form below. -/
def consensusLaw (p pd : ℕ → ℚ) (k : ℕ) : ℚ :=
  ((neighbours (k / 2)).map (fun j =>
      (p (2 * (j - 1) + k % 2) - p (2 * (k / 2) + k % 2))
        - (pd (2 * (j - 1) + k % 2) - pd (2 * (k / 2) + k % 2)))).sum

/-- Matrix form of the nominal formation law, spec §4.2: coordinate `k` of
`-(L ⊗ I₂) (p - p_d)` for a given matrix `L`.  Modelled from the spec, to be
instantiated with the `L_G` constructed in main.py lines 96-107. -/
def laplacianLaw (L : ℕ → ℕ → ℤ) (p pd : ℕ → ℚ) (k : ℕ) : ℚ :=
  -(((List.range number_robots).map (fun j =>
      (L (k / 2) j : ℚ) * (p (2 * j + k % 2) - pd (2 * j + k % 2)))).sum)

/-- Concrete state used to separate the two formation-law forms: equal to
`p_d` except that robot 1's x coordinate is shifted by one. -/
def pFail (k : ℕ) : ℚ := p_d k + (if k = 0 then 1 else 0)

/-- Euclidean inner product on `Fin n → ℚ`. -/
def dotQ (n : ℕ) (a b : Fin n → ℚ) : ℚ := ∑ k, a k * b k

/-- Feasibility for the stacked inequality system `A u ≤ b`, spec §3
(QPProblem). -/
def feasibleQP (m n : ℕ) (A : Fin m → Fin n → ℚ) (b : Fin m → ℚ) (u : Fin n → ℚ) : Prop :=
  ∀ r, dotQ n (A r) u ≤ b r

/-- Squared Euclidean distance, the QP objective `‖u - u_nom‖²`. -/
def sqDist (n : ℕ) (u v : Fin n → ℚ) : ℚ := ∑ k, (u k - v k) ^ 2

/-- Modelled from the spec: the safety QP solve (`cbfController*` via
`scipy.optimize.minimize`, in the `auxiliary` module absent from `src/`) is
modelled by its contract, spec §4.5: a returned command is feasible for
`A u ≤ b` and minimizes `‖u - u_nom‖²` over the feasible set. -/
def isQPsolution (m n : ℕ) (A : Fin m → Fin n → ℚ) (b : Fin m → ℚ) (unom u : Fin n → ℚ) :
    Prop :=
  feasibleQP m n A b u ∧ ∀ w, feasibleQP m n A b w → sqDist n u unom ≤ sqDist n w unom

/-- Per-step state of the simulation loop in obstacle mode: the stacked robot
positions `p[:,i]` and the extra-robot position `huil_p[:,i]`. -/
structure SimState (n2 : ℕ) where
  p : Fin n2 → ℚ
  q : ℚ × ℚ

/-- One pass of the integration part of the simulation loop, main.py lines
198-205, in the configured obstacle mode: robots advance by forward Euler
with the filtered command `u`, the extra robot by its own law. -/
def simStep (n2 : ℕ) (i T : ℕ) (v : ℚ) (d : ℕ) (u : Fin n2 → ℚ) (s : SimState n2) :
    SimState n2 :=
  { p := integrateStep n2 s.p u, q := huilIntegrate i T v d s.q }

/-- Initial robot positions, main.py line 172:
`p[:,0] = x_max*np.random.rand(number_robots*dim) - x_max/2`, as a function of
the drawn random vector `r`. -/
def initP (n2 : ℕ) (r : Fin n2 → ℚ) : Fin n2 → ℚ :=
  fun k => x_max * r k - x_max / 2

/-- Initial extra-robot position, main.py line 175:
`huil_p[:,0] = np.array([-5, 20])`, independent of the random draw. -/
def huil_p0 : ℚ × ℚ := (-5, 20)

/-- Conclusion of the initialization claim: every coordinate of the initial
position vector lies in `[-x_max/2, x_max/2)`, strictly inside the arena. -/
def initWithin (n2 : ℕ) (r : Fin n2 → ℚ) : Prop :=
  ∀ k : Fin n2,
    -(x_max / 2) ≤ initP n2 r k ∧ initP n2 r k < x_max / 2
      ∧ -x_max < initP n2 r k ∧ initP n2 r k < x_max

/-- Constant zero trajectory on two coordinates, used as a concrete input. -/
def zeroTraj : ℕ → Fin 2 → ℚ := fun _ _ => 0

/-- One-row, one-column constraint matrix used as a concrete QP input. -/
def qpA1 : Fin 1 → Fin 1 → ℚ := fun _ _ => 1

/-- Right-hand side of the concrete one-row QP input. -/
def qpB1 : Fin 1 → ℚ := fun _ => 1

/-- Nominal command of the concrete one-row QP input, strictly interior. -/
def qpU1 : Fin 1 → ℚ := fun _ => 0

/-- Concrete loop state with zero robot positions and the extra robot at its
initial position. -/
def wsA : SimState 2 := { p := fun _ => 0, q := (-5, 20) }

/-- Concrete loop state with different robot positions but the same
extra-robot position as `wsA`. -/
def wsB : SimState 2 := { p := fun _ => 7, q := (-5, 20) }

/-- Constant one-half random draw on two coordinates. -/
def rHalf : Fin 2 → ℚ := fun _ => 1 / 2

/-! ## Evaluation of the edge-list fold and the constructed matrix -/

/-- Each row of the edge-construction loop maps the closed form for the rows
before it to the closed form including it: rows `i` append exactly the pairs
`(i+1, j)` with `j > i+1`, the mirrors of earlier rows being filtered out by
the deduplication guard. -/
theorem edgeStep_row : ∀ i, i < number_robots → edgeStep i (pairsUpTo i) = pairsUpTo (i + 1) := by
  decide

/-- Unfolding one outer iteration of the edge-construction loop. -/
theorem edgesAux_succ (n : ℕ) : edgesAux (n + 1) = edgeStep n (edgesAux n) := by
  unfold edgesAux
  rw [List.range_succ, List.foldl_append]
  rfl

/-- The edge list after `n` rows equals its closed form. -/
theorem edgesAux_eval : ∀ n, n ≤ number_robots → edgesAux n = pairsUpTo n := by
  intro n
  induction n with
  | zero => intro _; rfl
  | succ n ih =>
    intro h
    rw [edgesAux_succ, ih (Nat.le_of_succ_le h), edgeStep_row n (Nat.lt_of_succ_le h)]

/-- The final edge list equals its closed form: all lexicographically ordered
pairs `(a, b)` with `1 ≤ a < b ≤ number_robots`. -/
theorem edges_eval : edges = pairsUpTo number_robots :=
  edgesAux_eval number_robots (le_refl number_robots)

/-- Evaluation form of the constructed matrix: membership in the edge fold
replaced by membership in its closed form. -/
theorem L_G_eval (i j : ℕ) :
    L_G i j =
      if i = j then (number_neighbours i : ℤ)
      else if (i + 1, j + 1) ∈ pairsUpTo number_robots then -1 else 0 := by
  unfold L_G
  rw [edges_eval]

/-! ## Arena-invariance helper lemmas -/

/-- Both arena half-extents equal 25 in the configured run. -/
theorem coordBound_eq (k : ℕ) : coordBound k = 25 := by
  unfold coordBound x_max y_max winx winy
  split <;> norm_num

/-- One Euler step with a command satisfying the arena CBF rows stays inside
the arena (gain over frequency is `1/50 ≤ 1`). -/
theorem arena_step_preserves (n2 : ℕ) (p u : Fin n2 → ℚ)
    (hp : inArena n2 p) (hu : arenaRows n2 p u) : inArena n2 (integrateStep n2 p u) := by
  intro k
  obtain ⟨h1, h2⟩ := hp k
  obtain ⟨h3, h4⟩ := hu k
  rw [coordBound_eq] at h1 h2 h3 h4 ⊢
  simp only [alpha, one_mul] at h3 h4
  simp only [integrateStep, systemDynamics, freq]
  constructor <;> linarith

/-- Evaluation of the neighbour list of robot index 1 (robot 2). -/
theorem neighbours_one_eval :
    neighbours 1
      = [1, 3, 4, 5, 6, 7, 8, 9, 10, 11, 12, 13, 14, 15, 16, 17, 18, 19, 20, 21] := by
  decide

/-- The state `pFail` agrees with `p_d` on every coordinate of positive
index, in particular on every robot's x coordinate except robot 1's. -/
theorem pFail_sub (j : ℕ) (hj : 1 ≤ j) : pFail (2 * j) - p_d (2 * j) = 0 := by
  have h2 : 2 * j ≠ 0 := by omega
  simp [pFail, h2]

/-- The constructed matrix has a zero where the Laplacian of the complete
graph would have `-1`: row 1, column 0. -/
theorem L_G_one_zero : L_G 1 0 = 0 := by
  simp only [L_G_eval]
  decide

/-- Each neighbour-sum term at coordinate 2 collapses to the indicator of
the perturbed coordinate. -/
theorem pFail_term (j : ℕ) :
    (pFail (2 * (j - 1)) - pFail 2) - (p_d (2 * (j - 1)) - p_d 2)
      = if 2 * (j - 1) = 0 then (1 : ℚ) else 0 := by
  simp only [pFail]
  norm_num

/-- The QP objective is a sum of squares, hence nonnegative. -/
theorem sqDist_nonneg (n : ℕ) (u v : Fin n → ℚ) : 0 ≤ sqDist n u v :=
  Finset.sum_nonneg (fun k _ => sq_nonneg (u k - v k))

/-- The QP objective vanishes at the nominal command itself. -/
theorem sqDist_self (n : ℕ) (u : Fin n → ℚ) : sqDist n u u = 0 := by
  simp [sqDist]

/-! ## Claim theorems -/

/-- C1, counterexample: the simulation loop of main.py line 179 iterates over
`range(max_time_size-1)`, so the per-step pipeline executes 2999 times, not
`T = max_T*freq = 3000` times as claimed. -/
theorem c1_counterexample :
    loopIters = 2999 ∧ max_time_size = 3000 ∧ loopIters ≠ max_time_size := by
  refine ⟨?_, ?_, ?_⟩ <;>
    simp [loopIters, max_time_size, max_T, freqN, List.length_range]

/-- C1, amended: the pipeline executes `max_T*freq - 1` times, each executed
step appends one row to every history table, and the position matrix
pre-sized for `max_T*freq` columns is fully written (initial column plus one
integrated column per executed step). -/
theorem c1_amended :
    loopIters = max_time_size - 1 ∧ historyRowsPerTable = max_time_size - 1
      ∧ positionColumnsWritten = max_time_size := by
  refine ⟨?_, ?_, ?_⟩ <;>
    simp [loopIters, historyRowsPerTable, positionColumnsWritten,
      max_time_size, max_T, freqN, List.length_range]

/-- C2, counterexample: with the wedge selected (`extra_robot = False`,
`wedge = True`), the arena constraint system is still among the systems
handed to the safety filter (`cbfControllerWArenaWedge` receives `A_arena`
and `b_arena` alongside `A_wedge` and `b_wedge`), contradicting the claimed
mutual exclusion. -/
theorem c2_counterexample : ConstraintFamily.arena ∈ qpFamilies false true := by
  decide

/-- C2, amended: the arena family is handed to the filter in every branch of
the dispatch; selecting the wedge adds the wedge family alongside the arena
family rather than replacing it, and the wedge and extra-robot families are
mutually exclusive. -/
theorem c2_amended :
    ∀ er w : Bool,
      ConstraintFamily.arena ∈ qpFamilies er w
        ∧ (ConstraintFamily.wedge ∈ qpFamilies er w ↔ er = false ∧ w = true)
        ∧ (ConstraintFamily.extra ∈ qpFamilies er w ↔ er = true) := by
  decide

/-- C3: along any trajectory driven by the forward-Euler integrator, if the
initial position is inside the arena and the filtered command of every step
satisfies the arena CBF rows (as any feasible QP answer does), then every
robot coordinate stays within its arena half-extent at every step, with no
assumption on the nominal command. -/
theorem c3_arena_invariant (n2 : ℕ) (p u : ℕ → Fin n2 → ℚ)
    (hinit : inArena n2 (p 0))
    (hdyn : ∀ t, p (t + 1) = integrateStep n2 (p t) (u t))
    (hfeas : ∀ t, arenaRows n2 (p t) (u t)) :
    ∀ t, inArena n2 (p t) := by
  intro t
  induction t with
  | zero => exact hinit
  | succ n ih =>
    rw [hdyn n]
    exact arena_step_preserves n2 (p n) (u n) ih (hfeas n)

/-- C3 witness: the zero trajectory with zero commands satisfies all
hypotheses, and the theorem yields containment at step 5. -/
theorem c3_arena_invariant_witness : inArena 2 (zeroTraj 5) := by
  refine c3_arena_invariant 2 zeroTraj zeroTraj ?_ ?_ ?_ 5
  · intro k
    rw [coordBound_eq]
    constructor <;> norm_num [zeroTraj]
  · intro t
    funext k
    simp [integrateStep, systemDynamics, zeroTraj]
  · intro t k
    rw [coordBound_eq]
    constructor <;> norm_num [zeroTraj, alpha]

/-- C4: the integrator is exactly the explicit forward-Euler step
`p(t+1) = p(t) + u(t)/freq` on the full stacked state (with the
single-integrator `systemDynamics` of the spec), and the extra robot advances
by the same rule with its own deterministic velocity law. -/
theorem c4_euler_step :
    (∀ (n2 : ℕ) (p u : Fin n2 → ℚ) (k : Fin n2),
        integrateStep n2 p u k = p k + u k / freq)
      ∧ ∀ (i T : ℕ) (v : ℚ) (d : ℕ) (q : ℚ × ℚ),
          huilIntegrate i T v d q
            = (q.1 + (extraRobotDynamics i T v d).1 / freq,
               q.2 + (extraRobotDynamics i T v d).2 / freq) := by
  constructor
  · intro n2 p u k
    simp only [integrateStep, systemDynamics]
    ring
  · intro i T v d q
    simp only [huilIntegrate, Prod.mk.injEq]
    constructor <;> ring

/-- C5: in obstacle mode (`extra_robot` true) the nominal command reaches the
safety filter unmodified for every value of the HuIL flag, and the HuIL
override is applied exactly in the branch where obstacle mode is off. -/
theorem c5_mode_exclusive :
    (∀ (n2 : ℕ) (unom : Fin n2 → ℚ) (huilFlag hr i T : ℕ) (v : ℚ) (d : ℕ),
        u_n n2 true unom huilFlag hr i T v d = unom)
      ∧ ∀ (n2 : ℕ) (unom : Fin n2 → ℚ) (huilFlag hr i T : ℕ) (v : ℚ) (d : ℕ),
          u_n n2 false unom huilFlag hr i T v d
            = huilController n2 unom huilFlag hr i T v d := by
  constructor <;> intro n2 unom huilFlag hr i T v d <;> simp [u_n]

/-- C6: the two forms of the nominal law that the claim asserts equal
disagree on the matrix `L_G` that main.py constructs.  At the state `pFail`
(equal to `p_d` except robot 1's x coordinate), coordinate 2 of the output
(robot 2's x) is 0 under `-(L_G ⊗ I₂)(p - p_d)` but 1 under the
neighbour-sum law, because `L_G` row 1 lacks the entry `-1` at column 0. -/
theorem c6_laws_disagree :
    laplacianLaw L_G pFail p_d 2 = 0 ∧ consensusLaw pFail p_d 2 = 1
      ∧ laplacianLaw L_G pFail p_d 2 ≠ consensusLaw pFail p_d 2 := by
  have h1 : laplacianLaw L_G pFail p_d 2 = 0 := by
    simp only [laplacianLaw]
    rw [neg_eq_zero]
    apply List.sum_eq_zero
    intro x hx
    rw [List.mem_map] at hx
    obtain ⟨j, hj, rfl⟩ := hx
    norm_num
    rcases Nat.eq_zero_or_pos j with h | h
    · subst h
      left
      norm_num [L_G_one_zero]
    · right
      linarith [pFail_sub j h]
  have h2 : consensusLaw pFail p_d 2 = 1 := by
    simp only [consensusLaw]
    norm_num [neighbours_one_eval, pFail_term]
  refine ⟨h1, h2, ?_⟩
  rw [h1, h2]
  norm_num

/-- C7: if the nominal command strictly satisfies every row of the stacked
constraint system, then it is itself a QP solution and every QP solution
equals it (projection onto the feasible set is the identity on interior
points, by strict convexity of the objective). -/
theorem c7_interior_identity (m n : ℕ) (A : Fin m → Fin n → ℚ) (b : Fin m → ℚ)
    (unom : Fin n → ℚ) (hmargin : ∀ r, dotQ n (A r) unom < b r) :
    isQPsolution m n A b unom unom ∧ ∀ u, isQPsolution m n A b unom u → u = unom := by
  have hfeas : feasibleQP m n A b unom := fun r => le_of_lt (hmargin r)
  constructor
  · refine ⟨hfeas, fun w _ => ?_⟩
    rw [sqDist_self]
    exact sqDist_nonneg n w unom
  · intro u hu
    have h1 : sqDist n u unom ≤ 0 := by
      have := hu.2 unom hfeas
      rwa [sqDist_self] at this
    have h3 : sqDist n u unom = 0 := le_antisymm h1 (sqDist_nonneg n u unom)
    funext k
    have h4 := (Finset.sum_eq_zero_iff_of_nonneg
      (fun j _ => sq_nonneg (u j - unom j))).mp h3 k (Finset.mem_univ k)
    have h5 : u k - unom k = 0 := by
      have := pow_eq_zero_iff (two_ne_zero) |>.mp h4
      exact this
    linarith [h5]

/-- C7 witness: for the one-row system `u ≤ 1` with interior nominal command
0, the nominal command is the QP solution. -/
theorem c7_interior_identity_witness : isQPsolution 1 1 qpA1 qpB1 qpU1 qpU1 :=
  (c7_interior_identity 1 1 qpA1 qpB1 qpU1
    (by intro r; norm_num [dotQ, qpA1, qpB1, qpU1, Fin.sum_univ_one])).1

/-- C8: the matrix that main.py lines 96-107 construct is not the symmetric
graph Laplacian the claim describes: the diagonal does carry the degree 20,
but the off-diagonal `-1` is written only for the first orientation of each
edge, so `L_G[1][0] = 0` while `L_G[0][1] = -1` (robots 1 and 2 are
neighbours), the matrix is asymmetric, and row 1 sums to 1 instead of 0. -/
theorem c8_laplacian_eval :
    L_G 0 0 = 20 ∧ L_G 0 1 = -1 ∧ L_G 1 0 = 0 ∧ L_G 1 0 ≠ L_G 0 1
      ∧ ((List.range number_robots).map (fun j => L_G 1 j)).sum = 1 := by
  simp only [L_G_eval]
  decide

/-- C9: the extra robot's update inside the simulation step is a function of
only the step counters, the speed magnitude and the segment divisor: two loop
states agreeing on the extra-robot position produce identical extra-robot
updates regardless of all robot positions and of the filtered (QP) command. -/
theorem c9_agent_noninterference (n2 i T : ℕ) (v : ℚ) (d : ℕ)
    (s1 s2 : SimState n2) (u1 u2 : Fin n2 → ℚ) (hq : s1.q = s2.q) :
    (simStep n2 i T v d u1 s1).q = (simStep n2 i T v d u2 s2).q := by
  simp [simStep, hq]

/-- C9 witness: two states with different robot positions and different
filtered commands but the same extra-robot position yield the same
extra-robot update. -/
theorem c9_agent_noninterference_witness :
    (simStep 2 0 3000 (5 / 2) 6 (fun _ => 1) wsA).q
      = (simStep 2 0 3000 (5 / 2) 6 (fun _ => -4) wsB).q :=
  c9_agent_noninterference 2 0 3000 (5 / 2) 6 wsA wsB (fun _ => 1) (fun _ => -4) rfl

/-- C10: for every random draw `r` with all coordinates in `[0, 1)`, every
coordinate of the initial position vector `x_max*r - x_max/2` lies in
`[-x_max/2, x_max/2)`, strictly inside the arena bounds, and the extra
robot's initial position is the fixed point `(-5, 20)`. -/
theorem c10_init_in_bounds (n2 : ℕ) (r : Fin n2 → ℚ)
    (hr : ∀ k, 0 ≤ r k ∧ r k < 1) :
    initWithin n2 r ∧ huil_p0 = (-5, 20) := by
  constructor
  · intro k
    obtain ⟨h0, h1⟩ := hr k
    unfold initP x_max winx
    norm_num
    constructor
    · linarith
    constructor
    · linarith
    constructor
    · linarith
    · linarith
  · rfl

/-- C10 witness: the constant draw one-half puts both coordinates at the
arena centre and the extra robot at `(-5, 20)`. -/
theorem c10_init_in_bounds_witness : initWithin 2 rHalf ∧ huil_p0 = (-5, 20) :=
  c10_init_in_bounds 2 rHalf (by intro k; constructor <;> norm_num [rHalf])

end Spec2Proof
